import Mathlib

/-!
Verification development for `WisperFlow/Scripts/faster_whisper_server.py`,
a line-delimited JSON command server wrapping a speech-to-text engine.

The Python source is shallowly embedded:
  * JSON values are the inductive `JsonVal` (Python ints and floats are both
    idealized as exact rationals `ℚ`; floating-point rounding is not modelled).
  * The external world (the GPU probe, the engine constructor, the filesystem,
    the WAV container parser, the inference call, the wall clock) is an
    explicit environment record `Env` of pure functions.
  * Exceptions are modelled with `Option`/`Except`; an uncaught exception in
    the dispatch layer is the explicit outcome `StepOut.crash`.
  * The stdin line stream is a `List ParsedLine`, abstracting
    `line.strip()` + `json.loads(line)`: each element records whether the
    stripped line was blank, invalid JSON (with the decoder message), or a
    parsed JSON value.
-/

/-- A JSON value as produced by `json.loads`.  Object fields keep their
textual order; `json.loads` keeps the last binding of a duplicated key,
which `objGet` reproduces by searching from the end. -/
inductive JsonVal : Type
  | null : JsonVal
  | bool : Bool → JsonVal
  | num : ℚ → JsonVal
  | str : String → JsonVal
  | arr : List JsonVal → JsonVal
  | obj : List (String × JsonVal) → JsonVal

/-- Python `==` between a JSON-decoded value and a string literal: true
exactly when the value is that string (comparing a non-string to a string
yields `False`, it does not raise). -/
def jsonEqStr (v : JsonVal) (t : String) : Bool :=
  match v with
  | JsonVal.str s => s = t
  | _ => false

/-- Python `dict.get(k, default)` on a JSON object decoded by `json.loads`:
with duplicate keys the last occurrence wins. -/
def objGet (kvs : List (String × JsonVal)) (k : String) : Option JsonVal :=
  (kvs.reverse.find? (fun p => p.1 = k)).map (fun p => p.2)

mutual

/-- Python `repr` of a JSON-decoded value, used by `str`/f-strings for
containers.  Numeric rendering is idealized (no claim exercises it). -/
def pyRepr : JsonVal → String
  | JsonVal.null => "None"
  | JsonVal.bool true => "True"
  | JsonVal.bool false => "False"
  | JsonVal.num q => if q.den = 1 then toString q.num else toString q
  | JsonVal.str s => "\x27" ++ s ++ "\x27"
  | JsonVal.arr xs => "[" ++ pyReprList xs ++ "]"
  | JsonVal.obj kvs => "\x7b" ++ pyReprObj kvs ++ "\x7d"

/-- Comma-separated `repr`s of list elements. -/
def pyReprList : List JsonVal → String
  | [] => ""
  | [x] => pyRepr x
  | x :: rest => pyRepr x ++ ", " ++ pyReprList rest

/-- Comma-separated `repr`s of object entries. -/
def pyReprObj : List (String × JsonVal) → String
  | [] => ""
  | [kv] => "\x27" ++ kv.1 ++ "\x27: " ++ pyRepr kv.2
  | kv :: rest => "\x27" ++ kv.1 ++ "\x27: " ++ pyRepr kv.2 ++ ", " ++ pyReprObj rest

end

/-- Python `str()` applied to a JSON-decoded value, as an f-string does:
a string formats as itself, anything else as its `repr`. -/
def pyStr : JsonVal → String
  | JsonVal.str s => s
  | v => pyRepr v

/-- Round-half-to-even of a rational to an integer, the idealization of
Python `round` on exact values. -/
def roundHalfEven (q : ℚ) : ℤ :=
  if q - ⌊q⌋ < 1/2 then ⌊q⌋
  else if 1/2 < q - ⌊q⌋ then ⌊q⌋ + 1
  else if ⌊q⌋ % 2 = 0 then ⌊q⌋ else ⌊q⌋ + 1

/-- Python `round(x, 3)` idealized over exact rationals. -/
def pyRound3 (q : ℚ) : ℚ := (roundHalfEven (q * 1000) : ℚ) / 1000

/-! ## Audio Loader (`_load_audio`, lines 115-155 of the source) -/

/-- The header fields and integer sample data of a WAV container as read by
the `wave` module: `samples` is the flat interleaved sequence of integer
samples obtained by `np.frombuffer` on `wf.readframes(n_frames)` (so its
length is frame count times channel count). -/
structure WavData : Type where
  sampleRate : ℕ
  nChannels : ℕ
  sampleWidth : ℕ
  samples : List ℤ

/-- Outcome of `wave.open` + header/frame reads on a file: either the parsed
container or an exception from the `wave` module (malformed or unreadable
file, or a non-string path handed to `open`). -/
inductive WavParse : Type
  | ok : WavData → WavParse
  | failed : WavParse

/-- What `_load_audio` hands to the engine: a normalized mono sample buffer,
or the original `audio_path` argument when the fallback path is taken. -/
inductive AudioResult : Type
  | buffer : List ℚ → AudioResult
  | path : JsonVal → AudioResult

/-- `audio.reshape(-1, c).mean(axis=1)`: averages each consecutive group of
`c` interleaved samples into one mono sample.  Only invoked under the
guard that `c` divides the sample count (otherwise `reshape` raises). -/
def downmix (c : ℕ) (xs : List ℚ) : List ℚ :=
  if _h : c = 0 ∨ xs.length < c then []
  else ((xs.take c).sum / (c : ℚ)) :: downmix c (xs.drop c)
termination_by xs.length
decreasing_by
  simp only [List.length_drop]
  omega

/-- `np.linspace(0, L - 1, n)`: `n` evenly spaced rationals from `0` to
`L - 1` inclusive (`[]` for `n = 0`, `[0]` for `n = 1`). -/
def linspace (L n : ℕ) : List ℚ :=
  if n ≤ 1 then (List.range n).map (fun _ => 0)
  else (List.range n).map (fun i : ℕ => (i : ℚ) * ((L : ℚ) - 1) / ((n : ℚ) - 1))

/-- `np.interp(x, np.arange(len(audio)), audio)`: linear interpolation of the
sample sequence at fractional index `x`, clamped to the endpoints. -/
def interpAt (audio : List ℚ) (x : ℚ) : ℚ :=
  if x ≤ 0 then audio.getD 0 0
  else if (audio.length : ℚ) - 1 ≤ x then audio.getD (audio.length - 1) 0
  else
    let i : ℕ := ⌊x⌋.toNat
    let a := audio.getD i 0
    let b := audio.getD (i + 1) 0
    a + (x - (i : ℚ)) * (b - a)

/-- The resampling step of `_load_audio` (source lines 144-149), entered when
`sample_rate ≠ 16000`.  `none` models the exceptions the surrounding handler
catches: `16000 / sample_rate` raises `ZeroDivisionError` when the rate is
`0`, and `np.interp` raises on an empty sample-point array when the buffer
is empty.  Otherwise the result has `int(len(audio) * 16000 / rate)`
samples, linearly interpolated at evenly spaced fractional indices. -/
def resample (rate : ℕ) (audio : List ℚ) : Option (List ℚ) :=
  if rate = 0 then none
  else if audio.length = 0 then none
  else some ((linspace audio.length (audio.length * 16000 / rate)).map (interpAt audio))

/-- The resampling stage of `_load_audio`: convert to 16 kHz when needed,
falling back to the path when the conversion raises. -/
def loadAudioRate (p : JsonVal) (w : WavData) (audio : List ℚ) : AudioResult :=
  if w.sampleRate ≠ 16000 then
    match resample w.sampleRate audio with
    | some res => AudioResult.buffer res
    | none => AudioResult.path p
  else
    AudioResult.buffer audio

/-- The downmix and resample stages of `_load_audio`, applied to the
normalized float buffer. -/
def loadAudioNorm (p : JsonVal) (w : WavData) (audio0 : List ℚ) : AudioResult :=
  if w.nChannels > 1 then
    if audio0.length % w.nChannels = 0 then
      loadAudioRate p w (downmix w.nChannels audio0)
    else
      AudioResult.path p
  else
    loadAudioRate p w audio0

/-- `_load_audio` (source lines 115-155).  `p` is the `audio_path` argument
and `parse` the outcome of the `wave`-module reads on it.  Every exception
inside the `with` block — a parse failure, the `ValueError` raised for a
sample width other than 2 or 4 bytes, a `reshape` failure when the channel
count does not divide the sample count, and the resampling failures — is
caught by the `except` clause, which falls back to returning the original
path argument. -/
def loadAudio (p : JsonVal) (parse : WavParse) : AudioResult :=
  match parse with
  | WavParse.failed => AudioResult.path p
  | WavParse.ok w =>
    if w.sampleWidth = 2 then
      loadAudioNorm p w (w.samples.map (fun s : ℤ => (s : ℚ) / 32768))
    else if w.sampleWidth = 4 then
      loadAudioNorm p w (w.samples.map (fun s : ℤ => (s : ℚ) / 2147483648))
    else
      AudioResult.path p

/-! ## Server State and external environment -/

/-- The two fields of `FasterWhisperServer.__init__` (source lines 35-37).
`model` is the engine handle (`None` before any successful load, abstracted
to a numeric handle afterwards); `model_size` is whatever value was passed
as the size of the last successfully loaded model (`None` initially). -/
structure ServerState : Type where
  model : Option ℕ
  model_size : JsonVal

/-- `FasterWhisperServer()`: both fields start as `None`. -/
def initState : ServerState := ServerState.mk none JsonVal.null

/-- Result record the engine's `model.transcribe` call is reduced to by the
source: the texts of the yielded segments in order, plus `info.language`
and `info.language_probability`. -/
structure EngineOut : Type where
  segments : List String
  language : String
  languageProbability : ℚ

/-- The external world of one command: the GPU probe (`none` when importing
`torch` raises `ImportError`, otherwise the `torch.cuda.is_available()`
result), the `WhisperModel` constructor (`Except.error` models a raised
exception, carrying `str(e)`), `os.path.exists` (`none` models a raised
`TypeError`, e.g. for a `None` path; for every string argument the real
call returns a boolean), the `wave`-module parse of a path, the engine's
inference call, and the wall-clock time the transcription took. -/
structure Env : Type where
  cudaAvailable : Option Bool
  constructModel : JsonVal → JsonVal → JsonVal → Except String ℕ
  pathExists : JsonVal → Option Bool
  wavParse : JsonVal → WavParse
  engineTranscribe : ℕ → AudioResult → JsonVal → Except String EngineOut
  elapsed : ℚ

/-! ## Transcription Engine Adapter (`load_model` and `transcribe`) -/

/-- The `compute_type == "auto"` resolution of `load_model` (source lines
43-47).  Note it reads the `device` argument as passed in, before the
`device == "auto"` resolution below runs. -/
def resolveCompute (device compute_type : JsonVal) : JsonVal :=
  if jsonEqStr compute_type "auto" then
    if jsonEqStr device "cuda" then JsonVal.str "float16" else JsonVal.str "int8"
  else compute_type

/-- The `device == "auto"` resolution of `load_model` (source lines 49-55):
probe CUDA, falling back to CPU when `torch` is missing. -/
def resolveDevice (env : Env) (device : JsonVal) : JsonVal :=
  if jsonEqStr device "auto" then
    match env.cudaAvailable with
    | some true => JsonVal.str "cuda"
    | some false => JsonVal.str "cpu"
    | none => JsonVal.str "cpu"
  else device

/-- `load_model` (source lines 39-66).  Resolves the compute type, then the
device, then constructs the model; on success stores handle and size in the
state and echoes the resolved settings, on an exception returns a failure
payload and leaves the state untouched. -/
def load_model (env : Env) (s : ServerState) (model_size device compute_type : JsonVal) :
    JsonVal × ServerState :=
  let ct := resolveCompute device compute_type
  let dev := resolveDevice env device
  match env.constructModel model_size dev ct with
  | Except.ok h =>
      (JsonVal.obj [("success", JsonVal.bool true), ("model", model_size),
        ("device", dev), ("compute_type", ct)],
       ServerState.mk (some h) model_size)
  | Except.error e =>
      (JsonVal.obj [("success", JsonVal.bool false), ("error", JsonVal.str e)], s)

/-- The `{"success": false, "error": "Model not loaded"}` payload of
`transcribe` (source line 71). -/
def notLoadedResp : JsonVal :=
  JsonVal.obj [("success", JsonVal.bool false), ("error", JsonVal.str "Model not loaded")]

/-- `transcribe` (source lines 68-113).  Returns `none` when the
`os.path.exists` call itself raises (that check sits outside the `try`
block, so the exception escapes to the loop); otherwise returns the
response payload together with the state, which `transcribe` never
mutates. -/
def transcribe (env : Env) (s : ServerState) (audio_path language : JsonVal) :
    Option (JsonVal × ServerState) :=
  match s.model with
  | none => some (notLoadedResp, s)
  | some m =>
    match env.pathExists audio_path with
    | none => none
    | some false =>
        some (JsonVal.obj [("success", JsonVal.bool false),
          ("error", JsonVal.str ("Audio file not found: " ++ pyStr audio_path))], s)
    | some true =>
        match env.engineTranscribe m (loadAudio audio_path (env.wavParse audio_path)) language with
        | Except.error e =>
            some (JsonVal.obj [("success", JsonVal.bool false),
              ("error", JsonVal.str e)], s)
        | Except.ok out =>
            some (JsonVal.obj [("success", JsonVal.bool true),
              ("text", JsonVal.str (String.join out.segments).trim),
              ("duration", JsonVal.num (pyRound3 env.elapsed)),
              ("language", JsonVal.str out.language),
              ("language_probability", JsonVal.num (pyRound3 out.languageProbability))], s)

/-! ## Command Loop (`run`, source lines 157-196) -/

/-- One stdin line after `line.strip()` and the `json.loads` attempt:
blank, rejected by the decoder (with `str(e)` of the `JSONDecodeError`),
or parsed to a JSON value. -/
inductive ParsedLine : Type
  | blank : ParsedLine
  | invalid : String → ParsedLine
  | valid : JsonVal → ParsedLine

/-- Outcome of dispatching one parsed request: a response with the state to
carry forward, the goodbye response followed by `break`, or an uncaught
exception that kills the process (`request.get` on a non-dict raises
`AttributeError`; a raising `os.path.exists` escapes `transcribe`). -/
inductive StepOut : Type
  | respond : JsonVal → ServerState → StepOut
  | quitOut : JsonVal → StepOut
  | crash : StepOut

/-- The `ping` response (source line 176). -/
def pingResp (s : ServerState) : JsonVal :=
  JsonVal.obj [("success", JsonVal.bool true), ("pong", JsonVal.bool true),
    ("model", s.model_size)]

/-- The `quit` response (source line 192). -/
def goodbyeResp : JsonVal :=
  JsonVal.obj [("success", JsonVal.bool true), ("goodbye", JsonVal.bool true)]

/-- The unknown-command response (source line 196). -/
def unknownResp (command : JsonVal) : JsonVal :=
  JsonVal.obj [("success", JsonVal.bool false),
    ("error", JsonVal.str ("Unknown command: " ++ pyStr command))]

/-- The dispatch body of the loop (source lines 167-196) for one line that
parsed to JSON value `v`: extract `command` (default `""`), compare it to
the four known commands, and delegate.  A non-object `v` crashes: Python
dispatches via `request.get`, which only dicts support. -/
def dispatch (env : Env) (s : ServerState) (v : JsonVal) : StepOut :=
  match v with
  | JsonVal.obj kvs =>
    let command := (objGet kvs "command").getD (JsonVal.str "")
    if jsonEqStr command "ping" then
      StepOut.respond (pingResp s) s
    else if jsonEqStr command "load" then
      let out := load_model env s ((objGet kvs "model_size").getD (JsonVal.str "base"))
        ((objGet kvs "device").getD (JsonVal.str "auto"))
        ((objGet kvs "compute_type").getD (JsonVal.str "auto"))
      StepOut.respond out.1 out.2
    else if jsonEqStr command "transcribe" then
      match transcribe env s ((objGet kvs "audio_path").getD (JsonVal.str ""))
        ((objGet kvs "language").getD JsonVal.null) with
      | some out => StepOut.respond out.1 out.2
      | none => StepOut.crash
    else if jsonEqStr command "quit" then
      StepOut.quitOut goodbyeResp
    else
      StepOut.respond (unknownResp command) s
  | _ => StepOut.crash

/-- How the `for line in sys.stdin` loop ended: input exhausted, `break` on
`quit`, or killed by an uncaught exception. -/
inductive LoopEnd : Type
  | finished : LoopEnd
  | quitCmd : LoopEnd
  | crashed : LoopEnd

/-- The response to an unparseable line (source line 170). -/
def invalidJsonResp (e : String) : JsonVal :=
  JsonVal.obj [("success", JsonVal.bool false),
    ("error", JsonVal.str ("Invalid JSON: " ++ e))]

/-- The main loop of `run` (source lines 162-196) over the remaining input
lines: the JSON response lines it prints in order, and how it ended.
Blank lines are skipped with no output; invalid JSON gets an inline error
response; a crash ends the process with no response for the line. -/
def runLoop (env : Env) : ServerState → List ParsedLine → List JsonVal × LoopEnd
  | _, [] => ([], LoopEnd.finished)
  | s, ParsedLine.blank :: rest => runLoop env s rest
  | s, ParsedLine.invalid e :: rest =>
      let out := runLoop env s rest
      (invalidJsonResp e :: out.1, out.2)
  | s, ParsedLine.valid v :: rest =>
      match dispatch env s v with
      | StepOut.crash => ([], LoopEnd.crashed)
      | StepOut.quitOut r => ([r], LoopEnd.quitCmd)
      | StepOut.respond r s1 =>
          let out := runLoop env s1 rest
          (r :: out.1, out.2)

/-- The ready banner printed before any input is consumed (source line 160). -/
def banner : JsonVal :=
  JsonVal.obj [("ready", JsonVal.bool true), ("version", JsonVal.str "1.0")]

/-- `run` (source lines 157-196): the banner followed by the loop's output,
starting from the given state (the entry point starts from `initState`). -/
def runServer (env : Env) (s : ServerState) (input : List ParsedLine) :
    List JsonVal × LoopEnd :=
  let out := runLoop env s input
  (banner :: out.1, out.2)

/-! ## Concrete test environments used by witnesses and counterexamples -/

/-- An environment whose GPU probe reports CUDA available, whose model
constructor always succeeds with handle `7`, whose filesystem reports every
string path present (and raises on non-path types), whose files parse as a
3-byte-per-sample mono WAV, and whose engine call succeeds with one
segment `"hi"`. -/
def envA : Env :=
  { cudaAvailable := some true
    constructModel := fun _ _ _ => Except.ok 7
    pathExists := fun v => match v with
      | JsonVal.str _ => some true
      | _ => none
    wavParse := fun _ => WavParse.ok (WavData.mk 16000 1 3 [0])
    engineTranscribe := fun _ _ _ => Except.ok (EngineOut.mk ["hi"] "en" (1/2))
    elapsed := 0 }

/-- Like `envA` but the model constructor raises with message `"boom"`. -/
def envB : Env :=
  { cudaAvailable := some true
    constructModel := fun _ _ _ => Except.error "boom"
    pathExists := fun v => match v with
      | JsonVal.str _ => some true
      | _ => none
    wavParse := fun _ => WavParse.ok (WavData.mk 16000 1 3 [0])
    engineTranscribe := fun _ _ _ => Except.ok (EngineOut.mk ["hi"] "en" (1/2))
    elapsed := 0 }

/-! ## Helper lemmas -/

/-- `transcribe` never writes the server state: whatever response it
returns, it hands back the state it was given. -/
theorem transcribe_preserves_state (env : Env) (s : ServerState)
    (audio_path language : JsonVal) (r : JsonVal) (s1 : ServerState)
    (h : transcribe env s audio_path language = some (r, s1)) : s1 = s := by
  rcases hm : s.model with _ | m
  · simp only [transcribe, hm, Option.some.injEq, Prod.mk.injEq] at h
    exact h.2.symm
  · rcases hp : env.pathExists audio_path with _ | b
    · simp [transcribe, hm, hp] at h
    · cases b with
      | false =>
        simp only [transcribe, hm, hp, Option.some.injEq, Prod.mk.injEq] at h
        exact h.2.symm
      | true =>
        rcases he : env.engineTranscribe m
            (loadAudio audio_path (env.wavParse audio_path)) language with e | out
        · simp only [transcribe, hm, hp, he, Option.some.injEq, Prod.mk.injEq] at h
          exact h.2.symm
        · simp only [transcribe, hm, hp, he, Option.some.injEq, Prod.mk.injEq] at h
          exact h.2.symm

/-- When the `os.path.exists` call returns (rather than raising),
`transcribe` returns a response. -/
theorem transcribe_isSome (env : Env) (s : ServerState)
    (audio_path language : JsonVal) (h : (env.pathExists audio_path).isSome) :
    (transcribe env s audio_path language).isSome := by
  rcases hm : s.model with _ | m
  · simp [transcribe, hm]
  · rcases hp : env.pathExists audio_path with _ | b
    · rw [hp] at h; cases h
    · cases b with
      | false => simp [transcribe, hm, hp]
      | true =>
        rcases he : env.engineTranscribe m
            (loadAudio audio_path (env.wavParse audio_path)) language with e | out
        · simp [transcribe, hm, hp, he]
        · simp [transcribe, hm, hp, he]

/-- The state the loop carries into the next iteration after one dispatch:
the state handed back by a response, or the unchanged state when the loop
stops (quit or crash). -/
def stepState (s : ServerState) : StepOut → ServerState
  | StepOut.respond _ s1 => s1
  | _ => s

/-! ## Claim theorems -/

/-- C7: for every path argument whose file the `wave` module fails to parse
or read, `_load_audio` returns the original path argument unchanged; the
failure is downgraded to this fallback value and no error reaches the
caller (the function is total on this input). -/
theorem c7_parse_failure_returns_path (p : JsonVal) :
    loadAudio p WavParse.failed = AudioResult.path p := rfl

/-- C4: whenever no model is loaded, `transcribe` returns the structured
failure `{"success": false, "error": "Model not loaded"}` and the unchanged
state, for every environment (so the filesystem is never consulted and no
load is attempted — the result does not depend on `pathExists`,
`wavParse`, `constructModel` or the engine) and for every audio path and
language argument. -/
theorem c4_transcribe_without_model (env : Env) (ms audio_path language : JsonVal) :
    transcribe env (ServerState.mk none ms) audio_path language =
      some (notLoadedResp, ServerState.mk none ms) := rfl

/-- C10: `load_model` is atomic on failure — when the model constructor
raises with message `e` (on the resolved device and compute type), the call
returns the structured failure `{"success": false, "error": e}` and hands
back the state exactly as it was, so a previously loaded model handle and
identifier survive. -/
theorem c10_load_failure_preserves_state (env : Env) (s : ServerState)
    (ms dev ct : JsonVal) (e : String)
    (h : env.constructModel ms (resolveDevice env dev) (resolveCompute dev ct) =
      Except.error e) :
    load_model env s ms dev ct =
      (JsonVal.obj [("success", JsonVal.bool false), ("error", JsonVal.str e)], s) := by
  simp only [load_model, h]

/-- Witness for C10: a failing constructor with message `"boom"` leaves a
state that already holds model handle `5` untouched. -/
theorem c10_witness :
    load_model envB (ServerState.mk (some 5) (JsonVal.str "small"))
      (JsonVal.str "base") (JsonVal.str "cpu") (JsonVal.str "auto") =
      (JsonVal.obj [("success", JsonVal.bool false), ("error", JsonVal.str "boom")],
       ServerState.mk (some 5) (JsonVal.str "small")) :=
  c10_load_failure_preserves_state envB (ServerState.mk (some 5) (JsonVal.str "small"))
    (JsonVal.str "base") (JsonVal.str "cpu") (JsonVal.str "auto") "boom" rfl

/-- C9: upon reading a line whose request object carries command `"quit"`,
the loop emits exactly the goodbye success response and terminates: no
element of the remaining input is read or processed and no further
response is emitted, whatever lines follow. -/
theorem c9_quit_terminates (env : Env) (s : ServerState)
    (kvs : List (String × JsonVal)) (rest : List ParsedLine)
    (h : (objGet kvs "command").getD (JsonVal.str "") = JsonVal.str "quit") :
    runLoop env s (ParsedLine.valid (JsonVal.obj kvs) :: rest) =
      ([goodbyeResp], LoopEnd.quitCmd) := by
  have hd : dispatch env s (JsonVal.obj kvs) = StepOut.quitOut goodbyeResp := by
    simp [dispatch, h, jsonEqStr]
  simp [runLoop, hd]

/-- Witness for C9: a quit request followed by a ping request produces only
the goodbye response; the ping line is never processed. -/
theorem c9_witness :
    runLoop envA initState
      [ParsedLine.valid (JsonVal.obj [("command", JsonVal.str "quit")]),
       ParsedLine.valid (JsonVal.obj [("command", JsonVal.str "ping")])] =
      ([goodbyeResp], LoopEnd.quitCmd) :=
  c9_quit_terminates envA initState [("command", JsonVal.str "quit")]
    [ParsedLine.valid (JsonVal.obj [("command", JsonVal.str "ping")])] rfl

/-- C8: the server state is mutated only by the `load` command — for every
request object whose command is not `"load"` (including `ping`, `quit`,
unknown commands, and `transcribe` whether it fails a precondition or
succeeds), the state the loop carries forward is exactly the state before
the dispatch. -/
theorem c8_state_only_load_mutates (env : Env) (s : ServerState)
    (kvs : List (String × JsonVal))
    (h : jsonEqStr ((objGet kvs "command").getD (JsonVal.str "")) "load" = false) :
    stepState s (dispatch env s (JsonVal.obj kvs)) = s := by
  simp only [dispatch, h]
  by_cases h1 : jsonEqStr ((objGet kvs "command").getD (JsonVal.str "")) "ping" = true
  · simp [h1, stepState]
  · simp only [Bool.not_eq_true] at h1
    simp only [h1, Bool.false_eq_true, if_false]
    by_cases h2 : jsonEqStr ((objGet kvs "command").getD (JsonVal.str "")) "transcribe" = true
    · simp only [h2, if_true]
      rcases ht : transcribe env s ((objGet kvs "audio_path").getD (JsonVal.str ""))
          ((objGet kvs "language").getD JsonVal.null) with _ | out
      · simp [stepState]
      · rcases out with ⟨r, s1⟩
        have := transcribe_preserves_state env s _ _ r s1 ht
        simp [stepState, this]
    · simp only [Bool.not_eq_true] at h2
      simp only [h2, Bool.false_eq_true, if_false]
      by_cases h3 : jsonEqStr ((objGet kvs "command").getD (JsonVal.str "")) "quit" = true
      · simp [h3, stepState]
      · simp only [Bool.not_eq_true] at h3
        simp [h3, stepState]

/-- Witness for C8: a ping dispatched against the freshly started server
leaves the state unchanged. -/
theorem c8_witness :
    stepState initState (dispatch envA initState
      (JsonVal.obj [("command", JsonVal.str "ping")])) = initState :=
  c8_state_only_load_mutates envA initState [("command", JsonVal.str "ping")] rfl

/-- C2 (counterexample): a load request with `device="auto"` and
`compute_type="auto"` in an environment whose probe reports a GPU resolves
the device to `"cuda"` but the compute type to `"int8"`, not `"float16"` —
the code resolves the compute type from the *requested* device, before the
`"auto"` device is resolved, so the claimed half-precision-on-GPU rule
fails exactly when the GPU was chosen by the probe. -/
theorem c2_counterexample :
    load_model envA initState (JsonVal.str "base") (JsonVal.str "auto") (JsonVal.str "auto") =
      (JsonVal.obj [("success", JsonVal.bool true), ("model", JsonVal.str "base"),
        ("device", JsonVal.str "cuda"), ("compute_type", JsonVal.str "int8")],
       ServerState.mk (some 7) (JsonVal.str "base")) := rfl

/-- C2 (amended): the resolution is a pure function of the *requested*
device, the requested compute type and the probe result, echoed in the
success payload: `compute_type="auto"` resolves to `"float16"` exactly when
the request itself said `device="cuda"` and to `"int8"` for every other
requested device (including `"auto"`, whatever the probe later decides),
and `device="auto"` resolves to `"cuda"` exactly when the probe reports
CUDA available. -/
theorem c2_amended_auto_resolution (env : Env) (s : ServerState) (ms dev ct : JsonVal)
    (n : ℕ)
    (hok : env.constructModel ms (resolveDevice env dev) (resolveCompute dev ct) =
      Except.ok n) :
    load_model env s ms dev ct =
      (JsonVal.obj [("success", JsonVal.bool true), ("model", ms),
        ("device", resolveDevice env dev), ("compute_type", resolveCompute dev ct)],
       ServerState.mk (some n) ms)
    ∧ resolveCompute (JsonVal.str "cuda") (JsonVal.str "auto") = JsonVal.str "float16"
    ∧ (∀ d : JsonVal, d ≠ JsonVal.str "cuda" →
        resolveCompute d (JsonVal.str "auto") = JsonVal.str "int8")
    ∧ resolveDevice env (JsonVal.str "auto") =
        (if env.cudaAvailable = some true then JsonVal.str "cuda" else JsonVal.str "cpu") := by
  refine ⟨by simp only [load_model, hok], rfl, ?_, ?_⟩
  · intro d hd
    cases d with
    | str a =>
      by_cases ha : a = "cuda"
      · subst ha; exact absurd rfl hd
      · simp [resolveCompute, jsonEqStr, ha]
    | null => rfl
    | bool b => rfl
    | num q => rfl
    | arr xs => rfl
    | obj kvs => rfl
  · rcases hc : env.cudaAvailable with _ | b
    · simp [resolveDevice, jsonEqStr, hc]
    · cases b with
      | false => simp [resolveDevice, jsonEqStr, hc]
      | true => simp [resolveDevice, jsonEqStr, hc]

/-- Witness for C2 (amended): a load with requested device `"cpu"` and
`compute_type="auto"` succeeds with the echoed resolved pair
(`"cpu"`, `"int8"`). -/
theorem c2_witness :
    load_model envA initState (JsonVal.str "base") (JsonVal.str "cpu") (JsonVal.str "auto") =
      (JsonVal.obj [("success", JsonVal.bool true), ("model", JsonVal.str "base"),
        ("device", JsonVal.str "cpu"), ("compute_type", JsonVal.str "int8")],
       ServerState.mk (some 7) (JsonVal.str "base")) :=
  (c2_amended_auto_resolution envA initState (JsonVal.str "base") (JsonVal.str "cpu")
    (JsonVal.str "auto") 7 rfl).1

/-- C3 (counterexample): for a file whose WAV container parses with a
3-byte sample width, the loader's own `except` clause swallows the
`ValueError` and returns the path, and a transcribe call on such a file
(with a loaded model and an engine that decodes the path itself) returns a
*success* response — no structured failure carrying the unsupported-width
message ever reaches the caller. -/
theorem c3_counterexample :
    loadAudio (JsonVal.str "a.wav") (envA.wavParse (JsonVal.str "a.wav")) =
      AudioResult.path (JsonVal.str "a.wav")
    ∧ transcribe envA (ServerState.mk (some 7) (JsonVal.str "base"))
        (JsonVal.str "a.wav") JsonVal.null =
      some (JsonVal.obj [("success", JsonVal.bool true),
        ("text", JsonVal.str (String.join ["hi"]).trim),
        ("duration", JsonVal.num (pyRound3 0)), ("language", JsonVal.str "en"),
        ("language_probability", JsonVal.num (pyRound3 (1/2)))],
       ServerState.mk (some 7) (JsonVal.str "base")) :=
  ⟨rfl, rfl⟩

/-- C3 (amended): a WAV container whose sample width is neither 2 nor 4
raises `ValueError` inside `_load_audio`, which the function's own fallback
catches: the loader returns the original path unchanged (decoding is
delegated to the engine) and the width error message is not surfaced to
the caller. -/
theorem c3_amended_width_fallback (p : JsonVal) (w : WavData)
    (h2 : w.sampleWidth ≠ 2) (h4 : w.sampleWidth ≠ 4) :
    loadAudio p (WavParse.ok w) = AudioResult.path p := by
  simp [loadAudio, h2, h4]

/-- Witness for C3 (amended): a width-3 mono container falls back to the
path. -/
theorem c3_witness :
    loadAudio (JsonVal.str "b.wav") (WavParse.ok (WavData.mk 16000 1 3 [0])) =
      AudioResult.path (JsonVal.str "b.wav") :=
  c3_amended_width_fallback (JsonVal.str "b.wav") (WavData.mk 16000 1 3 [0])
    (by decide) (by decide)

/-- Under these conditions the dispatch of a request *object* cannot crash:
the filesystem existence check returns (rather than raises) on every string
path, and the request's `audio_path` field, after the `""` default, is a
string.  Every branch then produces a response or quits. -/
theorem dispatch_obj_responds (env : Env) (s : ServerState)
    (kvs : List (String × JsonVal))
    (hEnv : ∀ q : String, (env.pathExists (JsonVal.str q)).isSome)
    (hpath : ∃ q : String, (objGet kvs "audio_path").getD (JsonVal.str "") = JsonVal.str q) :
    dispatch env s (JsonVal.obj kvs) ≠ StepOut.crash := by
  simp only [dispatch]
  by_cases h1 : jsonEqStr ((objGet kvs "command").getD (JsonVal.str "")) "ping" = true
  · simp [h1]
  · simp only [Bool.not_eq_true] at h1
    simp only [h1, Bool.false_eq_true, if_false]
    by_cases h2 : jsonEqStr ((objGet kvs "command").getD (JsonVal.str "")) "load" = true
    · simp [h2]
    · simp only [Bool.not_eq_true] at h2
      simp only [h2, Bool.false_eq_true, if_false]
      by_cases h3 : jsonEqStr ((objGet kvs "command").getD (JsonVal.str "")) "transcribe" = true
      · simp only [h3, if_true]
        obtain ⟨q, hq⟩ := hpath
        rw [hq]
        have h5 := transcribe_isSome env s (JsonVal.str q)
          ((objGet kvs "language").getD JsonVal.null) (hEnv q)
        rcases Option.isSome_iff_exists.mp h5 with ⟨out, ho⟩
        simp [ho]
      · simp only [Bool.not_eq_true] at h3
        simp only [h3, Bool.false_eq_true, if_false]
        by_cases h4 : jsonEqStr ((objGet kvs "command").getD (JsonVal.str "")) "quit" = true
        · simp [h4]
        · simp only [Bool.not_eq_true] at h4
          simp [h4]

/-- C1 (counterexample): the input line `3` is valid JSON, yet the loop
emits *no* response line for it and dies — dispatch does `request.get` on
the parsed value, and a non-object has no `.get`, so the `AttributeError`
escapes the loop (only `json.JSONDecodeError` is caught).  The following
valid `ping` line is never read or answered. -/
theorem c1_counterexample :
    runLoop envA initState
      [ParsedLine.valid (JsonVal.num 3),
       ParsedLine.valid (JsonVal.obj [("command", JsonVal.str "ping")])] =
      ([], LoopEnd.crashed) := rfl

/-- C1 (amended): for every input line that parses to a JSON *object* — of
any shape, provided its `audio_path` field (after the `""` default) is a
string, so the existence check cannot raise — the loop emits exactly one
response line before processing the rest of the input (the `quit` command
emits its one response and then stops); for every blank line it emits no
response line at all.  (For valid-JSON lines that are not objects, the loop
instead crashes with no response, as the counterexample shows.) -/
theorem c1_one_response_per_object_line (env : Env) (s : ServerState)
    (kvs : List (String × JsonVal)) (rest : List ParsedLine)
    (hEnv : ∀ q : String, (env.pathExists (JsonVal.str q)).isSome)
    (hpath : ∃ q : String, (objGet kvs "audio_path").getD (JsonVal.str "") = JsonVal.str q) :
    (∃ resp : JsonVal,
      (∃ s1 : ServerState, dispatch env s (JsonVal.obj kvs) = StepOut.respond resp s1 ∧
        runLoop env s (ParsedLine.valid (JsonVal.obj kvs) :: rest) =
          (resp :: (runLoop env s1 rest).1, (runLoop env s1 rest).2))
      ∨ (dispatch env s (JsonVal.obj kvs) = StepOut.quitOut resp ∧
        runLoop env s (ParsedLine.valid (JsonVal.obj kvs) :: rest) =
          ([resp], LoopEnd.quitCmd)))
    ∧ runLoop env s (ParsedLine.blank :: rest) = runLoop env s rest := by
  constructor
  · cases hd : dispatch env s (JsonVal.obj kvs) with
    | respond r s1 => exact ⟨r, Or.inl ⟨s1, rfl, by simp [runLoop, hd]⟩⟩
    | quitOut r => exact ⟨r, Or.inr ⟨rfl, by simp [runLoop, hd]⟩⟩
    | crash => exact absurd hd (dispatch_obj_responds env s kvs hEnv hpath)
  · rfl

/-- Witness for C1 (amended): a ping request object against the fresh
server yields exactly its one response before the (empty) rest of the
input. -/
theorem c1_witness :
    (∃ resp : JsonVal,
      (∃ s1 : ServerState,
        dispatch envA initState (JsonVal.obj [("command", JsonVal.str "ping")]) =
          StepOut.respond resp s1 ∧
        runLoop envA initState
          [ParsedLine.valid (JsonVal.obj [("command", JsonVal.str "ping")])] =
          (resp :: (runLoop envA s1 []).1, (runLoop envA s1 []).2))
      ∨ (dispatch envA initState (JsonVal.obj [("command", JsonVal.str "ping")]) =
          StepOut.quitOut resp ∧
        runLoop envA initState
          [ParsedLine.valid (JsonVal.obj [("command", JsonVal.str "ping")])] =
          ([resp], LoopEnd.quitCmd)))
    ∧ runLoop envA initState (ParsedLine.blank :: []) = runLoop envA initState [] :=
  c1_one_response_per_object_line envA initState [("command", JsonVal.str "ping")] []
    (fun _ => rfl) ⟨"", rfl⟩

/-- `downmix` of an empty buffer is empty. -/
theorem downmix_nil (c : ℕ) : downmix c [] = [] := by
  have h' : c = 0 ∨ ([] : List ℚ).length < c := by
    rcases Nat.eq_zero_or_pos c with h | h
    · exact Or.inl h
    · exact Or.inr (by simpa using h)
  rw [downmix, dif_pos h']

/-- One step of `downmix` when a full frame is available. -/
theorem downmix_cons (c : ℕ) (xs : List ℚ) (hc : c ≠ 0) (hlen : c ≤ xs.length) :
    downmix c xs = ((xs.take c).sum / (c : ℚ)) :: downmix c (xs.drop c) := by
  have h' : ¬(c = 0 ∨ xs.length < c) := by
    push_neg
    exact ⟨hc, by omega⟩
  conv_lhs => rw [downmix]
  rw [dif_neg h']

/-- On a buffer that is the concatenation of frames of `c` channel values
each, `downmix` returns exactly the per-frame channel averages — the
`reshape(-1, c).mean(axis=1)` semantics. -/
theorem downmix_flatten_frames (c : ℕ) (hc : 0 < c) (frames : List (List ℚ))
    (hf : ∀ f ∈ frames, f.length = c) :
    downmix c frames.flatten = frames.map (fun f => f.sum / (c : ℚ)) := by
  induction frames with
  | nil => simpa using downmix_nil c
  | cons f t ih =>
    have hfl : f.length = c := hf f (List.mem_cons_self f t)
    rw [List.flatten_cons, List.map_cons,
      downmix_cons c _ (by omega) (by rw [List.length_append]; omega)]
    congr 1
    · rw [← hfl, List.take_left]
    · rw [← hfl, List.drop_left, hfl]
      exact ih (fun g hg => hf g (List.mem_cons_of_mem f hg))

/-- Interleave each sample into two identical channel values: the shape of
a 2-channel buffer whose left and right channels agree. -/
def dup2 {α : Type} : List α → List α
  | [] => []
  | a :: t => a :: a :: dup2 t

/-- `dup2` commutes with `map`. -/
theorem map_dup2 {α β : Type} (f : α → β) (xs : List α) :
    (dup2 xs).map f = dup2 (xs.map f) := by
  induction xs with
  | nil => rfl
  | cons a t ih => simp [dup2, ih]

/-- `dup2` doubles the length. -/
theorem length_dup2 {α : Type} (xs : List α) : (dup2 xs).length = 2 * xs.length := by
  induction xs with
  | nil => rfl
  | cons a t ih => simp [dup2, ih]; omega

/-- Averaging two identical channels gives back the original buffer. -/
theorem downmix_dup2 (xs : List ℚ) : downmix 2 (dup2 xs) = xs := by
  induction xs with
  | nil => exact downmix_nil 2
  | cons a t ih =>
    have hstep := downmix_cons 2 (a :: a :: dup2 t) (by omega) (by simp)
    simp only [dup2, hstep, List.take, List.drop]
    rw [ih]
    have hhead : (([a, a] : List ℚ).sum) / ((2 : ℕ) : ℚ) = a := by
      push_cast
      simp
    rw [hhead]

/-- `loadAudioRate` reads only the sample rate of the header. -/
theorem loadAudioRate_rate_congr (p : JsonVal) (w w' : WavData)
    (h : w.sampleRate = w'.sampleRate) (audio : List ℚ) :
    loadAudioRate p w audio = loadAudioRate p w' audio := by
  simp only [loadAudioRate, h]

/-- C6: (i) a 16-bit mono container at 16000 Hz with samples `zs` loads to
the float buffer `zs.map (· / 32768)` — in particular the output length
equals the frame count and the `i`-th value is the `i`-th sample divided by
32768; (ii) the downmix step maps a buffer made of `c`-channel frames to
the per-frame channel averages; (iii) a 2-channel container whose two
channels carry identical samples loads to exactly the same result as the
corresponding mono container, at any sample rate. -/
theorem c6_mono_load_and_downmix :
    (∀ (p : JsonVal) (samples : List ℤ),
      loadAudio p (WavParse.ok (WavData.mk 16000 1 2 samples)) =
        AudioResult.buffer (samples.map (fun z : ℤ => (z : ℚ) / 32768)))
    ∧ (∀ c : ℕ, 0 < c → ∀ frames : List (List ℚ), (∀ f ∈ frames, f.length = c) →
        downmix c frames.flatten = frames.map (fun f => f.sum / (c : ℚ)))
    ∧ (∀ (p : JsonVal) (r : ℕ) (xs : List ℤ),
        loadAudio p (WavParse.ok (WavData.mk r 2 2 (dup2 xs))) =
          loadAudio p (WavParse.ok (WavData.mk r 1 2 xs))) := by
  refine ⟨fun p samples => rfl, downmix_flatten_frames, fun p r xs => ?_⟩
  show loadAudioNorm p (WavData.mk r 2 2 (dup2 xs))
      ((dup2 xs).map (fun z : ℤ => (z : ℚ) / 32768)) =
    loadAudioNorm p (WavData.mk r 1 2 xs) (xs.map (fun z : ℤ => (z : ℚ) / 32768))
  have hlen : (((dup2 xs).map (fun z : ℤ => (z : ℚ) / 32768))).length % 2 = 0 := by
    rw [List.length_map, length_dup2]
    omega
  have e1 : loadAudioNorm p (WavData.mk r 2 2 (dup2 xs))
      ((dup2 xs).map (fun z : ℤ => (z : ℚ) / 32768)) =
      loadAudioRate p (WavData.mk r 2 2 (dup2 xs))
        (downmix 2 ((dup2 xs).map (fun z : ℤ => (z : ℚ) / 32768))) := by
    simp only [loadAudioNorm]
    rw [if_pos (by norm_num), if_pos hlen]
  have e2 : loadAudioNorm p (WavData.mk r 1 2 xs) (xs.map (fun z : ℤ => (z : ℚ) / 32768)) =
      loadAudioRate p (WavData.mk r 1 2 xs) (xs.map (fun z : ℤ => (z : ℚ) / 32768)) := by
    simp [loadAudioNorm]
  rw [e1, e2, map_dup2, downmix_dup2]
  exact loadAudioRate_rate_congr p _ _ rfl _

/-- Witness for C6: two 2-channel frames average to their per-frame means. -/
theorem c6_witness :
    downmix 2 ([[1, 2], [3, 5]] : List (List ℚ)).flatten =
      ([[1, 2], [3, 5]] : List (List ℚ)).map (fun f => f.sum / ((2 : ℕ) : ℚ)) :=
  c6_mono_load_and_downmix.2.1 2 (by norm_num) [[1, 2], [3, 5]]
    (by intro f hf; fin_cases hf <;> rfl)

/-- `linspace` always produces exactly `n` points. -/
theorem linspace_length (L n : ℕ) : (linspace L n).length = n := by
  unfold linspace
  split <;> simp

/-- The `i`-th `linspace` point, in the proper (`n ≥ 2`) regime. -/
theorem linspace_getD (L n i : ℕ) (h1 : 1 < n) (hi : i < n) :
    (linspace L n).getD i 0 = (i : ℚ) * ((L : ℚ) - 1) / ((n : ℚ) - 1) := by
  unfold linspace
  rw [if_neg (by omega)]
  rw [List.getD_eq_getElem _ _ (by simpa using hi)]
  rw [List.getElem_map, List.getElem_range]

/-- `getD` through a `map`, at an in-bounds index. -/
theorem map_getD_of_lt {α β : Type} (f : α → β) (l : List α) (i : ℕ)
    (hi : i < l.length) (d : α) (d' : β) : (l.map f).getD i d' = f (l.getD i d) := by
  rw [List.getD_eq_getElem _ _ (by simpa using hi), List.getD_eq_getElem _ _ hi,
    List.getElem_map]

/-- Interpolating at fractional index `0` gives the first sample. -/
theorem interpAt_zero (audio : List ℚ) : interpAt audio 0 = audio.getD 0 0 := by
  simp [interpAt]

/-- Interpolating at fractional index `length - 1` gives the last sample. -/
theorem interpAt_last (audio : List ℚ) (hne : audio ≠ []) :
    interpAt audio ((audio.length : ℚ) - 1) = audio.getD (audio.length - 1) 0 := by
  rcases audio with _ | ⟨a, t⟩
  · cases hne rfl
  · rcases t with _ | ⟨b, t2⟩
    · norm_num [interpAt]
    · have hlen : ((b :: t2).length + 1 : ℕ) = t2.length + 2 := by simp
      unfold interpAt
      rw [if_neg, if_pos le_rfl]
      push_neg
      have : (0 : ℚ) ≤ (t2.length : ℚ) := by positivity
      simp only [List.length_cons]
      push_cast
      linarith

/-- C5 (counterexample): a successfully parsed mono 16-bit container with
*zero* frames at 8000 Hz does not produce the claimed resampled buffer of
length `floor(0 * 16000 / 8000) = 0` — `np.interp` raises on an empty
sample-point array, the handler catches it, and the loader falls back to
returning the path. -/
theorem c5_counterexample :
    loadAudio (JsonVal.str "e.wav") (WavParse.ok (WavData.mk 8000 1 2 [])) =
      AudioResult.path (JsonVal.str "e.wav") := rfl

/-- C5 (amended): for every successfully parsed *nonempty* mono 16-bit
buffer of length `L` at source rate `r` with `r ≠ 16000` and `r ≠ 0`, the
loader produces the resampled buffer whose values are the linear
interpolations of the normalized samples at the `floor(L * 16000 / r)`
evenly spaced fractional indices of `np.linspace(0, L - 1, ·)`; the buffer
has exactly that length, and in the 8000 Hz case the length is exactly
`2 * L` with the first and last sample values preserved exactly.  (For
`L = 0`, and likewise for `r = 0`, the resampling step raises and the
loader falls back to returning the path, as the counterexample shows.) -/
theorem c5_resample_linear (p : JsonVal) (r : ℕ) (samples : List ℤ)
    (hr0 : r ≠ 0) (hr16 : r ≠ 16000) (hne : samples ≠ []) :
    loadAudio p (WavParse.ok (WavData.mk r 1 2 samples)) =
      AudioResult.buffer
        ((linspace samples.length (samples.length * 16000 / r)).map
          (interpAt (samples.map (fun z : ℤ => (z : ℚ) / 32768))))
    ∧ ((linspace samples.length (samples.length * 16000 / r)).map
        (interpAt (samples.map (fun z : ℤ => (z : ℚ) / 32768)))).length =
      samples.length * 16000 / r
    ∧ (r = 8000 →
        samples.length * 16000 / r = 2 * samples.length
        ∧ ((linspace samples.length (samples.length * 16000 / r)).map
            (interpAt (samples.map (fun z : ℤ => (z : ℚ) / 32768)))).getD 0 0 =
          (samples.map (fun z : ℤ => (z : ℚ) / 32768)).getD 0 0
        ∧ ((linspace samples.length (samples.length * 16000 / r)).map
            (interpAt (samples.map (fun z : ℤ => (z : ℚ) / 32768)))).getD
            (samples.length * 16000 / r - 1) 0 =
          (samples.map (fun z : ℤ => (z : ℚ) / 32768)).getD (samples.length - 1) 0) := by
  have hL : (samples.map (fun z : ℤ => (z : ℚ) / 32768)).length = samples.length :=
    List.length_map _ _
  have hL0 : samples.length ≠ 0 := fun h => hne (List.length_eq_zero.mp h)
  refine ⟨?_, ?_, ?_⟩
  · simp [loadAudio, loadAudioNorm, loadAudioRate, resample, hr16, hr0, hL, hL0]
  · rw [List.length_map, linspace_length]
  · intro h8
    subst h8
    have hn : samples.length * 16000 / 8000 = 2 * samples.length := by omega
    refine ⟨hn, ?_, ?_⟩
    · rw [hn, map_getD_of_lt _ _ 0 (by rw [linspace_length]; omega) 0 0,
        linspace_getD samples.length (2 * samples.length) 0 (by omega) (by omega)]
      simp only [Nat.cast_zero, zero_mul, zero_div, interpAt_zero]
    · rw [hn, map_getD_of_lt _ _ (2 * samples.length - 1)
        (by rw [linspace_length]; omega) 0 0,
        linspace_getD samples.length (2 * samples.length) (2 * samples.length - 1)
          (by omega) (by omega)]
      have h1 : 1 ≤ 2 * samples.length := by omega
      have hcast : ((2 * samples.length - 1 : ℕ) : ℚ) =
          ((2 * samples.length : ℕ) : ℚ) - 1 := by
        rw [Nat.cast_sub h1, Nat.cast_one]
      have hden : ((2 * samples.length : ℕ) : ℚ) - 1 ≠ 0 := by
        have h2 : (2 : ℚ) ≤ ((2 * samples.length : ℕ) : ℚ) := by
          exact_mod_cast (by omega : 2 ≤ 2 * samples.length)
        linarith
      have hval : (((2 * samples.length : ℕ) : ℚ) - 1) * ((samples.length : ℚ) - 1) /
          (((2 * samples.length : ℕ) : ℚ) - 1) = (samples.length : ℚ) - 1 := by
        rw [mul_comm, mul_div_assoc, div_self hden, mul_one]
      rw [hcast, hval]
      have hx : ((samples.length : ℚ)) - 1 =
          (((samples.map (fun z : ℤ => (z : ℚ) / 32768)).length : ℚ)) - 1 := by
        rw [hL]
      rw [hx, interpAt_last _ (by simp [hne]), hL]

/-- Witness for C5 (amended): two samples at 8000 Hz yield the 4-point
linear interpolation buffer. -/
theorem c5_witness :
    loadAudio (JsonVal.str "w.wav") (WavParse.ok (WavData.mk 8000 1 2 [1, 3])) =
      AudioResult.buffer
        ((linspace 2 4).map (interpAt ([1, 3].map (fun z : ℤ => (z : ℚ) / 32768))))
    ∧ ((linspace 2 4).map (interpAt ([1, 3].map (fun z : ℤ => (z : ℚ) / 32768)))).length =
      4 := by
  have h := c5_resample_linear (JsonVal.str "w.wav") 8000 ([1, 3] : List ℤ)
    (by decide) (by decide) (by decide)
  exact ⟨h.1, h.2.1⟩
